import Mathlib

/-!
# TurnTableTacho: the OLED plotter (`OLEDPlotter.h`) and its debugger (`Debugger.h`)

A shallow embedding of the plotting code of the record player tachometer.

Modelling conventions

* `float` values are exact rationals (`ℚ`): the arithmetic of the source is read
  over the real-number domain, without binary rounding.  The literal `33.33`
  is the rational `3333/100`.
* `int` values are integers (`ℤ`).  The range of `int` belongs to the target the
  source is compiled for, not to the source; it is a field of `Target`.
* The conversion `float → int` discards the fractional part (`float2int`,
  truncation toward zero) when the result lies in the range of `int`; C++ gives
  it no result otherwise.  The cast `(int)` in `value2Pixels` is the one
  conversion whose operand is not bounded by the code: it is `Target.castInt`,
  which outside the range of `int` yields whatever `int` the target yields
  (`Target.outOfRange`, any function).  Every other conversion to `int` has an
  operand in `[0, 128]`, inside the `int` of every target, and is `float2int`.
* `min` and `max` are the Arduino macros `((a)<(b)?(a):(b))` and
  `((a)>(b)?(a):(b))`; on mixed `int`/`float` operands C++ computes them in
  `float`, which is written out with explicit casts below.
* The display object `u8g2` is a collaborator outside the repository.  Every
  call made on it is recorded, in order, as a `Cmd`; the arguments are recorded
  as the integer values the caller passes.  The number of times `nextPage()`
  answers "one more page" is a parameter of `plotGraph`.
* The sample buffer `float values[]` is the list of the elements that can be
  read behind the pointer; reading past its end has no defined result and is
  `none`.
-/

namespace TurnTableTacho

/-! ## Debugger.h -/

namespace Debugger

/-- Source: `enum debugLevel {QUIET = 0, INFO = 1, DEBUG = 2, TRACE = 3}`. -/
inductive debugLevel where
  | QUIET
  | INFO
  | DEBUG
  | TRACE
  deriving DecidableEq, Repr

end Debugger

/-- The data members of `class Debugger`. -/
structure Debugger where
  debug : Debugger.debugLevel
  deriving DecidableEq, Repr

/-! ## OLEDPlotter.h: data -/

/-- Source: `enum scales {UNSET, THIRTYTHREE, FOURTYFIVE}`. -/
inductive scales where
  | UNSET
  | THIRTYTHREE
  | FOURTYFIVE
  deriving DecidableEq, Repr

/-- Source: `const float oled_width = 128.0`. -/
def oled_width : ℚ := 128

/-- Source: `const float oled_height = 128.0`. -/
def oled_height : ℚ := 128

/-- Source: `struct t_scaling`. -/
structure t_scaling where
  vmax : ℚ
  vmin : ℚ
  vtarget : ℚ
  resolution : ℚ
  labelTarget : String
  labelMin : String
  labelMax : String
  deriving DecidableEq, Repr

/-- Source: `const t_scaling scale_33 = { 36.0, 30.0, 33.33, oled_height / (36.0 - 30.0), "33", "30", "36" }`. -/
def scale_33 : t_scaling :=
  { vmax := 36, vmin := 30, vtarget := 3333 / 100,
    resolution := oled_height / (36 - 30),
    labelTarget := "33", labelMin := "30", labelMax := "36" }

/-- Source: `const t_scaling scale_45 = { 48.0, 42.0, 45.0, oled_height / (48.0 - 42.0), "45", "42", "48" }`. -/
def scale_45 : t_scaling :=
  { vmax := 48, vmin := 42, vtarget := 45,
    resolution := oled_height / (48 - 42),
    labelTarget := "45", labelMin := "42", labelMax := "48" }

/-- Source: `const int stretch = 4`. -/
def stretch : ℤ := 4

/-- The mutable data members of `class OLEDPlotter`: the active preset
`scaleset`, the tag `scale` and the `debugger`. -/
structure OLEDPlotter where
  scaleset : t_scaling
  scale : scales
  debugger : Debugger
  deriving DecidableEq, Repr

/-- The plotter as constructed: `t_scaling scaleset = scale_45`, and the members
without an initialiser (`scale`, `debugger.debug`) at their zero value, the
first enumerator (`UNSET`, `QUIET`). -/
def OLEDPlotter.initial : OLEDPlotter :=
  { scaleset := scale_45, scale := scales.UNSET, debugger := { debug := Debugger.debugLevel.QUIET } }

/-- The calls made on the display object `u8g2`, in the order they are made. -/
inductive Cmd where
  | firstPage
  | nextPage
  | setDrawColor (color : ℤ)
  | drawVLine (x y h : ℤ)
  | drawHLine (x y w : ℤ)
  | setCursor (x y : ℤ)
  | print (s : String)
  | drawLine (x0 y0 x1 y1 : ℤ)
  deriving DecidableEq, Repr

/-! ## OLEDPlotter.h: operations -/

/-- The integer part of a `float`, its fractional part discarded (truncation
toward zero): the result of a conversion `float → int` whenever it lies in the
range of `int`. -/
def float2int (x : ℚ) : ℤ := if 0 ≤ x then ⌊x⌋ else ⌈x⌉

/-- What the source leaves to the target it is compiled for: the range of `int`
(at least 16 bits), and the `int` that the conversion of a `float` outside that
range yields there (C++ defines none, so this can be any function). -/
structure Target where
  INT_MIN : ℤ
  INT_MAX : ℤ
  outOfRange : ℚ → ℤ
  INT_MIN_le : INT_MIN ≤ -32767
  INT_MAX_ge : 32767 ≤ INT_MAX

/-- The cast `(int)` of a `float` on a target: the fractional part is discarded
when the result is an `int` of the target; otherwise the result is the
target's. -/
def Target.castInt (t : Target) (x : ℚ) : ℤ :=
  if t.INT_MIN ≤ float2int x ∧ float2int x ≤ t.INT_MAX then float2int x else t.outOfRange x

/-- The Arduino Nano the source is written for ("pin 3 is int 1 on nano"): `int`
has 16 bits; a `float` outside its range is converted to 32 bits and the low 16
bits are kept (0 when it does not fit 32 bits either). -/
def Target.nano : Target :=
  { INT_MIN := -32768
    INT_MAX := 32767
    outOfRange := fun x =>
      if -2147483648 ≤ float2int x ∧ float2int x ≤ 2147483647 then
        (float2int x + 32768) % 65536 - 32768
      else 0
    INT_MIN_le := by decide
    INT_MAX_ge := by decide }

/-- Source: `int OLEDPlotter::value2Pixels(float value)`:
```
int px = (int)((value - scaleset.vmin) * scaleset.resolution);
px = max( min(px, oled_height -1), 0);
return px;
``` -/
def OLEDPlotter.value2Pixels (self : OLEDPlotter) (t : Target) (value : ℚ) : ℤ :=
  let px : ℤ := t.castInt ((value - self.scaleset.vmin) * self.scaleset.resolution)
  let px : ℤ := float2int (max (min (px : ℚ) (oled_height - 1)) 0)
  px

/-- Source: `void OLEDPlotter::drawYAxis()`: the axis line, the target tick and the
three labels. -/
def OLEDPlotter.drawYAxis (self : OLEDPlotter) (t : Target) : List Cmd :=
  let pxY : ℤ := float2int (oled_height - (self.value2Pixels t self.scaleset.vtarget : ℚ))
  let pxYmin : ℤ := float2int (oled_height - (self.value2Pixels t self.scaleset.vmin : ℚ))
  let pxYmax : ℤ := float2int (oled_height - (self.value2Pixels t self.scaleset.vmax : ℚ))
  [ Cmd.drawVLine 17 0 128,
    Cmd.drawHLine 12 pxY 5,
    Cmd.setCursor 0 (pxY + 3),
    Cmd.print self.scaleset.labelTarget,
    Cmd.setCursor 0 pxYmin,
    Cmd.print self.scaleset.labelMin,
    Cmd.setCursor 0 (pxYmax + 6),
    Cmd.print self.scaleset.labelMax ]

/-- The loop `for ( int i = 0; i < numVals; i ++ )` of `plotGraph`, entered at
index `i` with `n` iterations still to run and the current `last` and `pxX`:
```
float nval = values[i];
int pxY = height - this->value2Pixels(nval);
u8g2->drawLine(oled_width - (pxX - stretch - 1), last, oled_width - pxX, pxY);
last = pxY;
pxX = pxX + stretch;
``` -/
def OLEDPlotter.plotLoop (self : OLEDPlotter) (t : Target) (height : ℤ) (values : List ℚ) :
    ℕ → ℕ → ℤ → ℤ → Option (List Cmd)
  | 0, _, _, _ => some []
  | n + 1, i, last, pxX =>
    match values[i]? with
    | none => none
    | some nval =>
      let pxY : ℤ := height - self.value2Pixels t nval
      match OLEDPlotter.plotLoop self t height values n (i + 1) pxY (pxX + stretch) with
      | none => none
      | some rest =>
        some (Cmd.drawLine (float2int (oled_width - ((pxX - stretch - 1 : ℤ) : ℚ))) last
                (float2int (oled_width - (pxX : ℚ))) pxY :: rest)

/-- The body of the `do … while ( u8g2->nextPage() )` loop of `plotGraph`, one
page pass: `setDrawColor(1)`, the axis, the read of `values[0]` that seeds
`last`, and the loop over the `numVals` samples (it runs `numVals` times, not
at all when `numVals ≤ 0`). -/
def OLEDPlotter.plotPage (self : OLEDPlotter) (t : Target) (values : List ℚ) (numVals : ℤ) :
    Option (List Cmd) :=
  let height : ℤ := float2int (oled_height - 1)
  match values[0]? with
  | none => none
  | some v0 =>
    let last : ℤ := height - self.value2Pixels t v0
    match self.plotLoop t height values numVals.toNat 0 last 0 with
    | none => none
    | some segs => some (Cmd.setDrawColor 1 :: (self.drawYAxis t ++ segs))

/-- The `do { body } while ( u8g2->nextPage() )` loop: the body runs, then
`nextPage()` is called; `morePages` is the number of times the display still
answers that another page is to be drawn. -/
def pageLoop (body : Option (List Cmd)) : ℕ → Option (List Cmd)
  | 0 =>
    match body with
    | none => none
    | some cmds => some (cmds ++ [Cmd.nextPage])
  | k + 1 =>
    match body with
    | none => none
    | some cmds =>
      match pageLoop body k with
      | none => none
      | some rest => some (cmds ++ Cmd.nextPage :: rest)

/-- Source: `void OLEDPlotter::plotGraph(float values[], int numVals)`: `firstPage()`,
then the page loop.  The result is the plotter after the call together with the
calls made on the display; `none` when an element outside the buffer is read. -/
def OLEDPlotter.plotGraph (self : OLEDPlotter) (t : Target) (values : List ℚ) (numVals : ℤ)
    (morePages : ℕ) : Option (OLEDPlotter × List Cmd) :=
  match pageLoop (self.plotPage t values numVals) morePages with
  | none => none
  | some cmds => some (self, Cmd.firstPage :: cmds)

/-- Source: `void OLEDPlotter::toggleScale()`. -/
def OLEDPlotter.toggleScale (self : OLEDPlotter) : OLEDPlotter :=
  if self.scale = scales.THIRTYTHREE then
    { self with scale := scales.FOURTYFIVE, scaleset := scale_45 }
  else
    { self with scale := scales.THIRTYTHREE, scaleset := scale_33 }

/-- The plotter states reached from the initial one by `toggleScale` calls. -/
inductive Reachable : OLEDPlotter → Prop where
  | init : Reachable OLEDPlotter.initial
  | toggle {s : OLEDPlotter} : Reachable s → Reachable s.toggleScale

/-- The `drawLine` calls of a command sequence, as `(x0, y0, x1, y1)`. -/
def segments : List Cmd → List (ℤ × ℤ × ℤ × ℤ)
  | [] => []
  | Cmd.drawLine x0 y0 x1 y1 :: rest => (x0, y0, x1, y1) :: segments rest
  | _ :: rest => segments rest

/-- The plotter states reached from the initial one by `toggleScale` and
`plotGraph` calls (a `plotGraph` call that has a result). -/
inductive ReachableCalls (t : Target) : OLEDPlotter → Prop where
  | init : ReachableCalls t OLEDPlotter.initial
  | toggle {s : OLEDPlotter} : ReachableCalls t s → ReachableCalls t s.toggleScale
  | plot {s s' : OLEDPlotter} (values : List ℚ) (numVals : ℤ) (morePages : ℕ)
      (cmds : List Cmd) :
      ReachableCalls t s → s.plotGraph t values numVals morePages = some (s', cmds) →
      ReachableCalls t s'

/-! ## Debugger.h: operations -/

/-- The integer value of a `debugLevel` enumerator, by which `>` and `<=`
compare two levels. -/
def Debugger.debugLevel.val : Debugger.debugLevel → ℤ
  | Debugger.debugLevel.QUIET => 0
  | Debugger.debugLevel.INFO => 1
  | Debugger.debugLevel.DEBUG => 2
  | Debugger.debugLevel.TRACE => 3

/-- The value handed to `print` or `println`: one constructor for each of the
overloads `String`, `int`, `unsigned long`, `float`, `char`. -/
inductive Value where
  | string (line : String)
  | int (line : ℤ)
  | unsignedLong (line : ℕ)
  | float (line : ℚ)
  | char (line : Char)
  deriving DecidableEq, Repr

/-- The calls made on the output channel `Serial`, in the order they are made. -/
inductive SerialCall where
  | begin (baud : ℕ)
  | print (line : Value)
  | println (line : Value)
  deriving DecidableEq, Repr

/-- Source: `void Debugger::setDebug(debugLevel level)`:
```
debug = level;
if (  level > QUIET )
  Serial.begin(115200);
``` -/
def Debugger.setDebug (self : Debugger) (level : Debugger.debugLevel) :
    Debugger × List SerialCall :=
  let self : Debugger := { self with debug := level }
  if level.val > Debugger.debugLevel.QUIET.val then
    (self, [SerialCall.begin 115200])
  else
    (self, [])

/-- Source: `void Debugger::print(debugLevel level, T line)`, the same body for each
of the five overloads:
`if ( level > QUIET && level <= debug ) Serial.print(line);` -/
def Debugger.print (self : Debugger) (level : Debugger.debugLevel) (line : Value) :
    Debugger × List SerialCall :=
  if level.val > Debugger.debugLevel.QUIET.val ∧ level.val ≤ self.debug.val then
    (self, [SerialCall.print line])
  else
    (self, [])

/-- Source: `void Debugger::println(debugLevel level, T line)`, the same body for
each of the five overloads:
`if ( level > QUIET && level <= debug ) Serial.println(line);` -/
def Debugger.println (self : Debugger) (level : Debugger.debugLevel) (line : Value) :
    Debugger × List SerialCall :=
  if level.val > Debugger.debugLevel.QUIET.val ∧ level.val ≤ self.debug.val then
    (self, [SerialCall.println line])
  else
    (self, [])


/-! ## Conversion and clamping lemmas -/

theorem float2int_of_nonneg {x : ℚ} (h : 0 ≤ x) : float2int x = ⌊x⌋ := by
  simp [float2int, h]

theorem float2int_intCast (z : ℤ) : float2int (z : ℚ) = z := by
  unfold float2int
  split <;> simp

theorem castInt_of_inRange (t : Target) {x : ℚ} (hlo : t.INT_MIN ≤ float2int x)
    (hhi : float2int x ≤ t.INT_MAX) : t.castInt x = float2int x := by
  unfold Target.castInt
  rw [if_pos ⟨hlo, hhi⟩]

/-- A `float` whose integer part lies in `[-32767, 32767]` is converted by
truncation on every target. -/
theorem castInt_of_small (t : Target) {x : ℚ} (hlo : -32767 ≤ float2int x)
    (hhi : float2int x ≤ 32767) : t.castInt x = float2int x :=
  castInt_of_inRange t (le_trans t.INT_MIN_le hlo) (le_trans hhi t.INT_MAX_ge)

/-- The clamp of `value2Pixels`, computed in `float` and converted back,
is the integer clamp to `[0, 127]`. -/
theorem value2Pixels_eq_clamp (s : OLEDPlotter) (t : Target) (value : ℚ) :
    s.value2Pixels t value
      = max (min (t.castInt ((value - s.scaleset.vmin) * s.scaleset.resolution)) 127) 0 := by
  unfold OLEDPlotter.value2Pixels
  simp only []
  have h : (max (min ((t.castInt ((value - s.scaleset.vmin) * s.scaleset.resolution) : ℤ) : ℚ)
      (oled_height - 1)) 0)
      = ((max (min (t.castInt ((value - s.scaleset.vmin) * s.scaleset.resolution)) 127) 0 : ℤ) : ℚ) := by
    unfold oled_height
    push_cast
    norm_num
  rw [h, float2int_intCast]

/-- The same for a product in `[0, 32767]`, on every target. -/
theorem value2Pixels_of_small (s : OLEDPlotter) (t : Target) (value : ℚ)
    (h0 : 0 ≤ (value - s.scaleset.vmin) * s.scaleset.resolution)
    (h1 : (value - s.scaleset.vmin) * s.scaleset.resolution ≤ 32767) :
    s.value2Pixels t value
      = max (min ⌊(value - s.scaleset.vmin) * s.scaleset.resolution⌋ 127) 0 := by
  have hf := float2int_of_nonneg h0
  have hnn : 0 ≤ ⌊(value - s.scaleset.vmin) * s.scaleset.resolution⌋ := Int.floor_nonneg.mpr h0
  have hle : ⌊(value - s.scaleset.vmin) * s.scaleset.resolution⌋ ≤ 32767 := by
    have : ⌊(value - s.scaleset.vmin) * s.scaleset.resolution⌋ ≤ ⌊((32767 : ℤ) : ℚ)⌋ :=
      Int.floor_mono (by push_cast; exact h1)
    rwa [Int.floor_intCast] at this
  rw [value2Pixels_eq_clamp, castInt_of_small t (by rw [hf]; omega) (by rw [hf]; exact hle), hf]

theorem preset_facts {s : OLEDPlotter} (h : s.scaleset = scale_33 ∨ s.scaleset = scale_45) :
    s.scaleset.resolution = 64 / 3 ∧ s.scaleset.vmax - s.scaleset.vmin = 6 := by
  rcases h with h | h <;> rw [h] <;> constructor <;> norm_num [scale_33, scale_45, oled_height]

/-- Inside `[vmin, vmax]` of a preset the product lies in `[0, 128]`, so on every
target `value2Pixels` is the product rounded down and clamped. -/
theorem value2Pixels_inside (s : OLEDPlotter) (t : Target)
    (hp : s.scaleset = scale_33 ∨ s.scaleset = scale_45) (value : ℚ)
    (h1 : s.scaleset.vmin ≤ value) (h2 : value ≤ s.scaleset.vmax) :
    s.value2Pixels t value
      = max (min ⌊(value - s.scaleset.vmin) * s.scaleset.resolution⌋ 127) 0 := by
  obtain ⟨hres, hspan⟩ := preset_facts hp
  apply value2Pixels_of_small
  · rw [hres]
    exact mul_nonneg (by linarith) (by norm_num)
  · rw [hres]
    nlinarith

/-- The rows of the target, minimum and maximum value of the 45-preset, on every
target. -/
theorem value2Pixels_initial (t : Target) :
    OLEDPlotter.initial.value2Pixels t OLEDPlotter.initial.scaleset.vtarget = 64
      ∧ OLEDPlotter.initial.value2Pixels t OLEDPlotter.initial.scaleset.vmin = 0
      ∧ OLEDPlotter.initial.value2Pixels t OLEDPlotter.initial.scaleset.vmax = 127 := by
  refine ⟨?_, ?_, ?_⟩ <;>
    rw [value2Pixels_inside _ t (Or.inr rfl) _
      (by norm_num [OLEDPlotter.initial, scale_45])
      (by norm_num [OLEDPlotter.initial, scale_45])] <;>
    norm_num [OLEDPlotter.initial, scale_45, oled_height]

/-- The rows of the target, minimum and maximum value of the 33-preset, on every
target. -/
theorem value2Pixels_toggled (t : Target) :
    OLEDPlotter.initial.toggleScale.value2Pixels t
        OLEDPlotter.initial.toggleScale.scaleset.vtarget = 71
      ∧ OLEDPlotter.initial.toggleScale.value2Pixels t
        OLEDPlotter.initial.toggleScale.scaleset.vmin = 0
      ∧ OLEDPlotter.initial.toggleScale.value2Pixels t
        OLEDPlotter.initial.toggleScale.scaleset.vmax = 127 := by
  have e : OLEDPlotter.initial.toggleScale.scaleset = scale_33 := rfl
  refine ⟨?_, ?_, ?_⟩ <;>
    rw [value2Pixels_inside _ t (Or.inl e) _ (by rw [e] <;> norm_num [scale_33])
      (by rw [e] <;> norm_num [scale_33])] <;>
    rw [e] <;>
    norm_num [scale_33, oled_height, Int.floor_eq_iff]

theorem value2Pixels_mono (s : OLEDPlotter) (t : Target)
    (hp : s.scaleset = scale_33 ∨ s.scaleset = scale_45) {v1 v2 : ℚ}
    (h1 : s.scaleset.vmin ≤ v1) (h : v1 ≤ v2) (h2 : v2 ≤ s.scaleset.vmax) :
    s.value2Pixels t v1 ≤ s.value2Pixels t v2 := by
  obtain ⟨hres, -⟩ := preset_facts hp
  rw [value2Pixels_inside s t hp v1 h1 (le_trans h h2),
    value2Pixels_inside s t hp v2 (le_trans h1 h) h2]
  have hm : (v1 - s.scaleset.vmin) * s.scaleset.resolution
      ≤ (v2 - s.scaleset.vmin) * s.scaleset.resolution :=
    mul_le_mul_of_nonneg_right (by linarith) (by rw [hres]; norm_num)
  have := Int.floor_mono hm
  omega


/-! ## value2Pixels -/

/-- C1: for every sample value, every plotter state (so with either preset
active) and every target, `value2Pixels` returns a row `r` with
`0 ≤ r ≤ oled_height - 1 = 127`; the function is total, it has no error
result. -/
theorem value2Pixels_in_range (s : OLEDPlotter) (t : Target) (value : ℚ) :
    0 ≤ s.value2Pixels t value ∧ s.value2Pixels t value ≤ 127
      ∧ ((s.value2Pixels t value : ℤ) : ℚ) ≤ oled_height - 1 := by
  have h := value2Pixels_eq_clamp s t value
  have h0 : 0 ≤ s.value2Pixels t value := by rw [h]; exact le_max_right _ _
  have h1 : s.value2Pixels t value ≤ 127 := by rw [h]; omega
  refine ⟨h0, h1, ?_⟩
  have : ((s.value2Pixels t value : ℤ) : ℚ) ≤ ((127 : ℤ) : ℚ) := by exact_mod_cast h1
  unfold oled_height
  norm_num at this ⊢
  exact this

/-- C4: with either preset active, on every target, `value2Pixels` is
monotonically non-decreasing on the values strictly between the preset's `vmin`
and `vmax`. -/
theorem value2Pixels_monotone_inside (s : OLEDPlotter) (t : Target)
    (hp : s.scaleset = scale_33 ∨ s.scaleset = scale_45) (v1 v2 : ℚ)
    (h1 : s.scaleset.vmin < v1) (h12 : v1 ≤ v2) (h2 : v2 < s.scaleset.vmax) :
    s.value2Pixels t v1 ≤ s.value2Pixels t v2 :=
  value2Pixels_mono s t hp (le_of_lt h1) h12 (le_of_lt h2)

/-- C4, on the Nano at the 45-preset and the values 44.7 and 45. -/
theorem value2Pixels_monotone_inside_witness :
    OLEDPlotter.initial.value2Pixels Target.nano (447 / 10)
      ≤ OLEDPlotter.initial.value2Pixels Target.nano 45 :=
  value2Pixels_monotone_inside OLEDPlotter.initial Target.nano (Or.inr rfl) (447 / 10) 45
    (by norm_num [OLEDPlotter.initial, scale_45]) (by norm_num)
    (by norm_num [OLEDPlotter.initial, scale_45])

/-- In a reachable state the tag and the active preset agree: either nothing
was toggled yet (`UNSET`, 45-preset), or the tag names the active preset. -/
theorem reachable_inv {s : OLEDPlotter} (h : Reachable s) :
    (s.scale = scales.UNSET ∧ s.scaleset = scale_45)
      ∨ (s.scale = scales.THIRTYTHREE ∧ s.scaleset = scale_33)
      ∨ (s.scale = scales.FOURTYFIVE ∧ s.scaleset = scale_45) := by
  induction h with
  | init => exact Or.inl ⟨rfl, rfl⟩
  | toggle _ ih =>
    rcases ih with ⟨ht, _⟩ | ⟨ht, _⟩ | ⟨ht, _⟩ <;> simp [OLEDPlotter.toggleScale, ht]

theorem scale_33_ne_scale_45 : scale_33 ≠ scale_45 := by decide

/-- C6: in every state reached from the initial one by `toggleScale` calls, two
further `toggleScale` calls leave the active preset `scaleset` as it was. -/
theorem toggleScale_twice (s : OLEDPlotter) (h : Reachable s) :
    s.toggleScale.toggleScale.scaleset = s.scaleset := by
  rcases reachable_inv h with ⟨ht, hs⟩ | ⟨ht, hs⟩ | ⟨ht, hs⟩ <;>
    simp [OLEDPlotter.toggleScale, ht, hs]

/-- C6, at the state after one toggle. -/
theorem toggleScale_twice_witness :
    OLEDPlotter.initial.toggleScale.toggleScale.toggleScale.scaleset
      = OLEDPlotter.initial.toggleScale.scaleset :=
  toggleScale_twice OLEDPlotter.initial.toggleScale (Reachable.toggle Reachable.init)

/-- C7: in every reachable state one of the two distinct presets is active and
`toggleScale` makes the other one active: 45 becomes 33 and 33 becomes 45; at
startup the 45-preset is active and the first toggle changes the target label
from "45" to "33". -/
theorem toggleScale_switches (s : OLEDPlotter) (h : Reachable s) :
    scale_33 ≠ scale_45
      ∧ (s.scaleset = scale_45 ∨ s.scaleset = scale_33)
      ∧ (s.scaleset = scale_45 → s.toggleScale.scaleset = scale_33)
      ∧ (s.scaleset = scale_33 → s.toggleScale.scaleset = scale_45)
      ∧ OLEDPlotter.initial.scaleset.labelTarget = "45"
      ∧ OLEDPlotter.initial.toggleScale.scaleset.labelTarget = "33" := by
  refine ⟨scale_33_ne_scale_45, ?_, ?_, ?_, rfl, rfl⟩
  · rcases reachable_inv h with ⟨_, hs⟩ | ⟨_, hs⟩ | ⟨_, hs⟩ <;> simp [hs]
  · intro h45
    rcases reachable_inv h with ⟨ht, _⟩ | ⟨_, hs⟩ | ⟨ht, _⟩
    · simp [OLEDPlotter.toggleScale, ht]
    · exact absurd (hs.symm.trans h45) scale_33_ne_scale_45
    · simp [OLEDPlotter.toggleScale, ht]
  · intro h33
    rcases reachable_inv h with ⟨_, hs⟩ | ⟨ht, _⟩ | ⟨_, hs⟩
    · exact absurd (h33.symm.trans hs) scale_33_ne_scale_45
    · simp [OLEDPlotter.toggleScale, ht]
    · exact absurd (h33.symm.trans hs) scale_33_ne_scale_45

/-- C7, at the initial state. -/
theorem toggleScale_switches_witness :
    OLEDPlotter.initial.scaleset = scale_45
      ∧ OLEDPlotter.initial.toggleScale.scaleset = scale_33 :=
  ⟨rfl, (toggleScale_switches OLEDPlotter.initial Reachable.init).2.2.1 rfl⟩


/-! ## plotGraph: the commands of one page pass -/

theorem segments_append (a b : List Cmd) : segments (a ++ b) = segments a ++ segments b := by
  induction a with
  | nil => rfl
  | cons c rest ih => cases c <;> simp [segments, ih]

theorem segments_drawYAxis (s : OLEDPlotter) (t : Target) : segments (s.drawYAxis t) = [] := by
  simp [OLEDPlotter.drawYAxis, segments]

theorem float2int_sub_intCast (a z : ℤ) : float2int ((a : ℚ) - (z : ℚ)) = a - z := by
  have h : ((a : ℚ) - (z : ℚ)) = ((a - z : ℤ) : ℚ) := by push_cast; ring
  rw [h, float2int_intCast]

theorem height_eq : float2int (oled_height - 1) = 127 := by
  have h : (oled_height - 1 : ℚ) = ((127 : ℤ) : ℚ) := by norm_num [oled_height]
  rw [h, float2int_intCast]

/-- The loop issues one `drawLine` per iteration and nothing else: iteration
`k` (counted from the entry index `i`) draws from
`(oled_width - (pxX + stretch*k - stretch - 1), previous row)` to
`(oled_width - (pxX + stretch*k), row of values[i + k])`. -/
theorem plotLoop_spec (s : OLEDPlotter) (t : Target) (height : ℤ) (values : List ℚ) :
    ∀ (n i : ℕ) (last pxX : ℤ), i + n ≤ values.length →
      ∃ cmds, s.plotLoop t height values n i last pxX = some cmds
        ∧ (segments cmds).length = n
        ∧ cmds.length = n
        ∧ ∀ k, k < n → (segments cmds)[k]? = some
            (133 - pxX - 4 * (k : ℤ),
             if k = 0 then last else height - s.value2Pixels t (values.getD (i + k - 1) 0),
             128 - pxX - 4 * (k : ℤ),
             height - s.value2Pixels t (values.getD (i + k) 0)) := by
  intro n
  induction n with
  | zero =>
    intro i last pxX _
    exact ⟨[], rfl, rfl, rfl, fun k hk => absurd hk (Nat.not_lt_zero k)⟩
  | succ n ih =>
    intro i last pxX hlen
    have hi : i < values.length := by omega
    obtain ⟨rest, hrest, hsl, hl, hget⟩ :=
      ih (i + 1) (height - s.value2Pixels t values[i]) (pxX + stretch) (by omega)
    have hx0 : float2int (oled_width - ((pxX - stretch - 1 : ℤ) : ℚ)) = 133 - pxX := by
      have := float2int_sub_intCast 128 (pxX - stretch - 1)
      simp only [oled_width, stretch] at this ⊢
      push_cast at this ⊢
      rw [this]
      ring
    have hx1 : float2int (oled_width - (pxX : ℚ)) = 128 - pxX := by
      have := float2int_sub_intCast 128 pxX
      simp only [oled_width] at this ⊢
      push_cast at this ⊢
      rw [this]
    have hgi : values[i]?.getD 0 = values[i] := by
      rw [List.getElem?_eq_getElem hi]
      rfl
    refine ⟨Cmd.drawLine (133 - pxX) last (128 - pxX) (height - s.value2Pixels t values[i]) :: rest,
      ?_, ?_, ?_, ?_⟩
    · rw [OLEDPlotter.plotLoop, List.getElem?_eq_getElem hi]
      simp only [hrest, hx0, hx1]
    · simp [segments, hsl]
    · simp [hl]
    · intro k hk
      cases k with
      | zero => simp [segments, hgi]
      | succ k =>
        have hk' : k < n := by omega
        have e1 : i + 1 + k = i + (k + 1) := by omega
        have e2 : i + (k + 1) - 1 = i + k := by omega
        simp only [segments, List.getElem?_cons_succ, hget k hk']
        refine congrArg some (Prod.ext ?_ (Prod.ext ?_ (Prod.ext ?_ ?_)))
        · simp only [stretch]
          push_cast
          ring
        · dsimp only
          rw [if_neg (Nat.succ_ne_zero k), e2]
          by_cases hk0 : k = 0
          · subst hk0
            rw [if_pos rfl, List.getD_eq_getElem?_getD, Nat.add_zero, hgi]
          · have e3 : i + 1 + k - 1 = i + k := by omega
            rw [if_neg hk0, e3]
        · simp only [stretch]
          push_cast
          ring
        · dsimp only
          rw [e1]

theorem pageLoop_some (page : List Cmd) (k : ℕ) :
    pageLoop (some page) k = some (List.replicate (k + 1) (page ++ [Cmd.nextPage])).flatten := by
  induction k with
  | zero => simp [pageLoop]
  | succ k ih =>
    rw [pageLoop, ih, List.replicate_succ (page ++ [Cmd.nextPage]) (k + 1), List.flatten_cons]
    simp

theorem pageLoop_none (k : ℕ) : pageLoop none k = none := by
  cases k <;> rfl

theorem segments_passes (page : List Cmd) (k : ℕ) :
    segments (List.replicate k (page ++ [Cmd.nextPage])).flatten
      = (List.replicate k (segments page)).flatten := by
  induction k with
  | zero => rfl
  | succ k ih =>
    rw [List.replicate_succ, List.flatten_cons, segments_append, ih, segments_append,
      List.replicate_succ, List.flatten_cons]
    simp [segments]

theorem length_flatten_replicate {α : Type} (l : List α) (k : ℕ) :
    (List.replicate k l).flatten.length = k * l.length := by
  induction k with
  | zero => simp
  | succ k ih => rw [List.replicate_succ, List.flatten_cons, List.length_append, ih]; ring

/-- One page pass over a buffer holding `numVals = values.length ≥ 1` samples:
`setDrawColor(1)`, the axis, then the commands of the loop. -/
theorem plotPage_spec (s : OLEDPlotter) (t : Target) (values : List ℚ) (h : values ≠ []) :
    ∃ segs, s.plotLoop t 127 values values.length 0 (127 - s.value2Pixels t (values.getD 0 0)) 0
        = some segs
      ∧ s.plotPage t values values.length = some (Cmd.setDrawColor 1 :: (s.drawYAxis t ++ segs))
      ∧ segments (Cmd.setDrawColor 1 :: (s.drawYAxis t ++ segs)) = segments segs := by
  obtain ⟨segs, hsegs, -⟩ := plotLoop_spec s t 127 values values.length 0
    (127 - s.value2Pixels t (values.getD 0 0)) 0 (by omega)
  refine ⟨segs, hsegs, ?_, ?_⟩
  · cases values with
    | nil => exact absurd rfl h
    | cons v vs =>
      simp only [OLEDPlotter.plotPage, height_eq, Int.toNat_ofNat, List.getElem?_cons_zero]
      simp only [List.getD_cons_zero] at hsegs
      rw [hsegs]
  · simp [segments, segments_append, segments_drawYAxis]

theorem plotGraph_of_page (s : OLEDPlotter) (t : Target) (values : List ℚ) (numVals : ℤ) (k : ℕ)
    (page : List Cmd) (h : s.plotPage t values numVals = some page) :
    s.plotGraph t values numVals k
      = some (s, Cmd.firstPage :: (List.replicate (k + 1) (page ++ [Cmd.nextPage])).flatten) := by
  rw [OLEDPlotter.plotGraph, h, pageLoop_some]

/-- Page pass over a non-empty buffer with `numVals = values.length`: the pass
succeeds, it has `values.length` segments, and segment `k` is as `plotLoop_spec`
describes it from index 0, `last = 127 - value2Pixels(values[0])`, `pxX = 0`. -/
theorem plotPage_segments (s : OLEDPlotter) (t : Target) (values : List ℚ) (h : values ≠ []) :
    ∃ page, s.plotPage t values values.length = some page
      ∧ (segments page).length = values.length
      ∧ ∀ k, k < values.length → (segments page)[k]? = some
          (133 - 4 * (k : ℤ),
           127 - s.value2Pixels t (values.getD (k - 1) 0),
           128 - 4 * (k : ℤ),
           127 - s.value2Pixels t (values.getD k 0)) := by
  obtain ⟨segs, hloop, hpage, hseg⟩ := plotPage_spec s t values h
  obtain ⟨cmds, hc, hlen, -, hget⟩ := plotLoop_spec s t 127 values values.length 0
    (127 - s.value2Pixels t (values.getD 0 0)) 0 (by omega)
  rw [hloop] at hc
  cases hc
  refine ⟨_, hpage, by rw [hseg, hlen], ?_⟩
  intro k hk
  rw [hseg, hget k hk]
  refine congrArg some (Prod.ext ?_ (Prod.ext ?_ (Prod.ext ?_ ?_)))
  · dsimp only
    ring
  · dsimp only
    by_cases hk0 : k = 0
    · subst hk0
      rw [if_pos rfl]
    · rw [if_neg hk0, Nat.zero_add]
  · dsimp only
    ring
  · dsimp only
    rw [Nat.zero_add]

/-! ## plotGraph: the claims -/

/-- C8: with `numVals == 0` the code still evaluates `values[0]` before the loop.
On a buffer with no element that read is outside the buffer and the call has no
defined result; on a buffer whose element 0 can be read, every page pass issues
`setDrawColor(1)` and the axis commands, no `drawLine`, and the page loop runs
to its end (`firstPage`, then one `nextPage` per pass). -/
theorem plotGraph_zero_samples (s : OLEDPlotter) (t : Target) (k : ℕ) :
    s.plotGraph t [] 0 k = none
      ∧ ∀ (v : ℚ) (vs : List ℚ),
          s.plotGraph t (v :: vs) 0 k
              = some (s, Cmd.firstPage ::
                  (List.replicate (k + 1)
                    (Cmd.setDrawColor 1 :: (s.drawYAxis t ++ [Cmd.nextPage]))).flatten)
            ∧ segments (Cmd.firstPage ::
                  (List.replicate (k + 1)
                    (Cmd.setDrawColor 1 :: (s.drawYAxis t ++ [Cmd.nextPage]))).flatten) = [] := by
  constructor
  · have hp : s.plotPage t [] 0 = none := rfl
    rw [OLEDPlotter.plotGraph, hp, pageLoop_none]
  · intro v vs
    have hp : s.plotPage t (v :: vs) 0 = some (Cmd.setDrawColor 1 :: (s.drawYAxis t ++ [])) := by
      simp [OLEDPlotter.plotPage, OLEDPlotter.plotLoop]
    constructor
    · rw [plotGraph_of_page s t (v :: vs) 0 k _ hp]
      simp
    · have h := segments_passes (Cmd.setDrawColor 1 :: s.drawYAxis t) (k + 1)
      have e : Cmd.setDrawColor 1 :: s.drawYAxis t ++ [Cmd.nextPage]
          = Cmd.setDrawColor 1 :: (s.drawYAxis t ++ [Cmd.nextPage]) := rfl
      rw [e] at h
      have hs : segments (Cmd.setDrawColor 1 :: s.drawYAxis t) = [] := by
        simp [segments, segments_drawYAxis]
      have hf : segments (Cmd.firstPage ::
          (List.replicate (k + 1)
            (Cmd.setDrawColor 1 :: (s.drawYAxis t ++ [Cmd.nextPage]))).flatten)
          = segments (List.replicate (k + 1)
            (Cmd.setDrawColor 1 :: (s.drawYAxis t ++ [Cmd.nextPage]))).flatten := rfl
      rw [hf, h, hs]
      have hl := length_flatten_replicate ([] : List (ℤ × ℤ × ℤ × ℤ)) (k + 1)
      rw [List.length_nil, Nat.mul_zero] at hl
      exact List.length_eq_zero.mp hl

/-- C9, as stated, fails: for the 5-sample buffer `[44,45,46,45,44]` under the
45-preset one page pass issues 5 `drawLine` commands, not 4. -/
theorem plotGraph_five_samples_five_segments :
    ∃ page, OLEDPlotter.initial.plotPage Target.nano [44, 45, 46, 45, 44] 5 = some page
      ∧ segments page
          = [(133, 85, 128, 85), (129, 85, 124, 63), (125, 63, 120, 42),
             (121, 42, 116, 63), (117, 63, 112, 85)]
      ∧ (segments page).length ≠ 5 - 1 := by
  decide!

/-- C9, amended: for every non-empty sample buffer of `n` values `plotGraph`
issues exactly `n` `drawLine` commands per page pass, one per sample, so
`(morePages + 1) * n` over the whole call. -/
theorem plotGraph_segment_count (s : OLEDPlotter) (t : Target) (values : List ℚ) (morePages : ℕ)
    (h : values ≠ []) :
    ∃ page cmds, s.plotPage t values values.length = some page
      ∧ (segments page).length = values.length
      ∧ s.plotGraph t values values.length morePages = some (s, cmds)
      ∧ (segments cmds).length = (morePages + 1) * values.length := by
  obtain ⟨page, hpage, hlen, -⟩ := plotPage_segments s t values h
  refine ⟨page, _, hpage, hlen, plotGraph_of_page s t values _ morePages page hpage, ?_⟩
  have hf : segments (Cmd.firstPage ::
      (List.replicate (morePages + 1) (page ++ [Cmd.nextPage])).flatten)
      = segments (List.replicate (morePages + 1) (page ++ [Cmd.nextPage])).flatten := rfl
  rw [hf, segments_passes, length_flatten_replicate, hlen]

/-- C9, amended, at the buffer `[44,45,46,45,44]` with 8 page passes. -/
theorem plotGraph_segment_count_witness :
    ∃ page cmds, OLEDPlotter.initial.plotPage Target.nano [44, 45, 46, 45, 44]
          (([44, 45, 46, 45, 44] : List ℚ).length) = some page
      ∧ (segments page).length = ([44, 45, 46, 45, 44] : List ℚ).length
      ∧ OLEDPlotter.initial.plotGraph Target.nano [44, 45, 46, 45, 44]
          (([44, 45, 46, 45, 44] : List ℚ).length) 7 = some (OLEDPlotter.initial, cmds)
      ∧ (segments cmds).length = (7 + 1) * ([44, 45, 46, 45, 44] : List ℚ).length :=
  plotGraph_segment_count OLEDPlotter.initial Target.nano [44, 45, 46, 45, 44] 7 (by simp)

/-- C10, as stated, fails: for the buffer `[44,45]` under the 45-preset the
segment for sample 0 ends at `(128, 85)`, and the segment for sample 1 starts at
`(129, 85)`, not at `(oled_width - stretch*(1-1), 85) = (128, 85)`. -/
theorem plotGraph_segment_start_not_previous_end :
    ∃ page, OLEDPlotter.initial.plotPage Target.nano [44, 45] 2 = some page
      ∧ (segments page)[0]? = some (133, 85, 128, 85)
      ∧ (segments page)[1]? = some (129, 85, 124, 63)
      ∧ (129 : ℤ) ≠ float2int oled_width - stretch * (1 - 1) := by
  refine ⟨[Cmd.setDrawColor 1, Cmd.drawVLine 17 0 128, Cmd.drawHLine 12 64 5,
    Cmd.setCursor 0 67, Cmd.print "45", Cmd.setCursor 0 128, Cmd.print "42",
    Cmd.setCursor 0 7, Cmd.print "48", Cmd.drawLine 133 85 128 85,
    Cmd.drawLine 129 85 124 63], ?_, ?_, ?_, ?_⟩ <;> decide!

/-- C10, amended: for every sample buffer and every index `i ≥ 1` in it, the
segment drawn for sample `i` starts at
`(oled_width - stretch*(i-1) + 1, row of sample i-1)`, one pixel to the right of
the point `(oled_width - stretch*(i-1), row of sample i-1)` where the segment
for sample `i-1` ended, and ends at `(oled_width - stretch*i, row of sample i)`;
the row of a sample is `(oled_height - 1) - value2Pixels(sample)`. -/
theorem plotGraph_segment_endpoints (s : OLEDPlotter) (t : Target) (values : List ℚ) (i : ℕ) (v w : ℚ)
    (hi : 1 ≤ i) (hv : values[i - 1]? = some v) (hw : values[i]? = some w) :
    ∃ page x y, s.plotPage t values values.length = some page
      ∧ (segments page)[i - 1]? = some
          (x, y,
           float2int oled_width - stretch * ((i : ℤ) - 1),
           float2int (oled_height - 1) - s.value2Pixels t v)
      ∧ (segments page)[i]? = some
          (float2int oled_width - stretch * ((i : ℤ) - 1) + 1,
           float2int (oled_height - 1) - s.value2Pixels t v,
           float2int oled_width - stretch * (i : ℤ),
           float2int (oled_height - 1) - s.value2Pixels t w) := by
  have hne : values ≠ [] := by
    intro h0
    rw [h0] at hw
    simp at hw
  have hilt : i < values.length := by
    by_contra hge
    rw [List.getElem?_eq_none (not_lt.mp hge)] at hw
    exact Option.noConfusion hw
  have hW : float2int oled_width = 128 := by
    have := float2int_intCast 128
    simpa [oled_width] using this
  obtain ⟨page, hpage, -, hget⟩ := plotPage_segments s t values hne
  have hgv : values.getD (i - 1) 0 = v := by rw [List.getD_eq_getElem?_getD, hv]; rfl
  have hgw : values.getD i 0 = w := by rw [List.getD_eq_getElem?_getD, hw]; rfl
  have hcast : ((i - 1 : ℕ) : ℤ) = (i : ℤ) - 1 := by omega
  refine ⟨page, 133 - 4 * ((i - 1 : ℕ) : ℤ),
    127 - s.value2Pixels t (values.getD (i - 1 - 1) 0), hpage, ?_, ?_⟩
  · rw [hget (i - 1) (by omega)]
    refine congrArg some (Prod.ext rfl (Prod.ext rfl (Prod.ext ?_ ?_)))
    · dsimp only
      rw [hW, hcast, stretch]
    · dsimp only
      rw [height_eq, hgv]
  · rw [hget i hilt]
    refine congrArg some (Prod.ext ?_ (Prod.ext ?_ (Prod.ext ?_ ?_)))
    · dsimp only
      rw [hW, stretch]
      ring
    · dsimp only
      rw [height_eq, hgv]
    · dsimp only
      rw [hW, stretch]
    · dsimp only
      rw [height_eq, hgw]

/-- C10, amended, at the buffer `[44,45,46]` and index 2. -/
theorem plotGraph_segment_endpoints_witness :
    ∃ page x y, OLEDPlotter.initial.plotPage Target.nano [44, 45, 46] (([44, 45, 46] : List ℚ).length)
          = some page
      ∧ (segments page)[2 - 1]? = some
          (x, y,
           float2int oled_width - stretch * (((2 : ℕ) : ℤ) - 1),
           float2int (oled_height - 1) - OLEDPlotter.initial.value2Pixels Target.nano 45)
      ∧ (segments page)[2]? = some
          (float2int oled_width - stretch * (((2 : ℕ) : ℤ) - 1) + 1,
           float2int (oled_height - 1) - OLEDPlotter.initial.value2Pixels Target.nano 45,
           float2int oled_width - stretch * ((2 : ℕ) : ℤ),
           float2int (oled_height - 1) - OLEDPlotter.initial.value2Pixels Target.nano 46) :=
  plotGraph_segment_endpoints OLEDPlotter.initial Target.nano [44, 45, 46] 2 45 46 (by decide) rfl rfl

/-! ## drawYAxis -/

theorem oled_height_sub (z : ℤ) : float2int (oled_height - (z : ℚ)) = 128 - z := by
  have h := float2int_sub_intCast 128 z
  simp only [oled_height]
  push_cast at h
  exact h

/-- C11: for every plotter state (so with either preset active) `drawYAxis`
issues the axis line, the target tick at row `oled_height - value2Pixels(vtarget)`
and the three labels at column 0: the target label at that row `+ 3`, the min
label at `oled_height - value2Pixels(vmin)` `+ 0` and the max label at
`oled_height - value2Pixels(vmax)` `+ 6`; under the 45-preset these are tick row
64 and text rows 67, 128, 7, under the 33-preset tick row 57 and text rows 60,
128, 7. -/
theorem drawYAxis_positions (t : Target) :
    (∀ s : OLEDPlotter, s.drawYAxis t =
      [ Cmd.drawVLine 17 0 128,
        Cmd.drawHLine 12 (float2int oled_height - s.value2Pixels t s.scaleset.vtarget) 5,
        Cmd.setCursor 0 ((float2int oled_height - s.value2Pixels t s.scaleset.vtarget) + 3),
        Cmd.print s.scaleset.labelTarget,
        Cmd.setCursor 0 ((float2int oled_height - s.value2Pixels t s.scaleset.vmin) + 0),
        Cmd.print s.scaleset.labelMin,
        Cmd.setCursor 0 ((float2int oled_height - s.value2Pixels t s.scaleset.vmax) + 6),
        Cmd.print s.scaleset.labelMax ])
      ∧ OLEDPlotter.initial.drawYAxis t =
          [ Cmd.drawVLine 17 0 128, Cmd.drawHLine 12 64 5, Cmd.setCursor 0 67, Cmd.print "45",
            Cmd.setCursor 0 128, Cmd.print "42", Cmd.setCursor 0 7, Cmd.print "48" ]
      ∧ OLEDPlotter.initial.toggleScale.drawYAxis t =
          [ Cmd.drawVLine 17 0 128, Cmd.drawHLine 12 57 5, Cmd.setCursor 0 60, Cmd.print "33",
            Cmd.setCursor 0 128, Cmd.print "30", Cmd.setCursor 0 7, Cmd.print "36" ] := by
  have hH : float2int oled_height = 128 := by
    have := float2int_intCast 128
    simpa [oled_height] using this
  have hgen : ∀ s : OLEDPlotter, s.drawYAxis t =
      [ Cmd.drawVLine 17 0 128,
        Cmd.drawHLine 12 (float2int oled_height - s.value2Pixels t s.scaleset.vtarget) 5,
        Cmd.setCursor 0 ((float2int oled_height - s.value2Pixels t s.scaleset.vtarget) + 3),
        Cmd.print s.scaleset.labelTarget,
        Cmd.setCursor 0 ((float2int oled_height - s.value2Pixels t s.scaleset.vmin) + 0),
        Cmd.print s.scaleset.labelMin,
        Cmd.setCursor 0 ((float2int oled_height - s.value2Pixels t s.scaleset.vmax) + 6),
        Cmd.print s.scaleset.labelMax ] := by
    intro s
    simp only [OLEDPlotter.drawYAxis, oled_height_sub, hH, add_zero]
  refine ⟨hgen, ?_, ?_⟩
  · obtain ⟨h1, h2, h3⟩ := value2Pixels_initial t
    rw [hgen, h1, h2, h3, hH]
    rfl
  · obtain ⟨h1, h2, h3⟩ := value2Pixels_toggled t
    rw [hgen, h1, h2, h3, hH]
    rfl

/-! ## Debugger -/

/-- C12: after `setDebug(d)` a `print` or `println` call with level `l` and a
value of any of the five types emits exactly that value when `QUIET < l` and
`l ≤ d`, and otherwise emits nothing; in both cases the debugger is left as it
is.  After `setDebug(QUIET)` no call emits anything. -/
theorem Debugger_print_iff (self : Debugger) (d l : Debugger.debugLevel) (line : Value) :
    (((self.setDebug d).1.print l line).2
        = if Debugger.debugLevel.QUIET.val < l.val ∧ l.val ≤ d.val
          then [SerialCall.print line] else [])
      ∧ (((self.setDebug d).1.println l line).2
        = if Debugger.debugLevel.QUIET.val < l.val ∧ l.val ≤ d.val
          then [SerialCall.println line] else [])
      ∧ (((self.setDebug d).1.print l line).2 ≠ []
          ↔ Debugger.debugLevel.QUIET.val < l.val ∧ l.val ≤ d.val)
      ∧ (((self.setDebug d).1.println l line).2 ≠ []
          ↔ Debugger.debugLevel.QUIET.val < l.val ∧ l.val ≤ d.val)
      ∧ ((self.setDebug d).1.print l line).1 = (self.setDebug d).1
      ∧ ((self.setDebug d).1.println l line).1 = (self.setDebug d).1
      ∧ ((self.setDebug Debugger.debugLevel.QUIET).1.print l line).2 = []
      ∧ ((self.setDebug Debugger.debugLevel.QUIET).1.println l line).2 = [] := by
  have hd : ∀ d', (self.setDebug d').1.debug = d' := by
    intro d'
    unfold Debugger.setDebug
    split <;> rfl
  have hq : ∀ l' : Debugger.debugLevel,
      ¬ (l'.val > Debugger.debugLevel.QUIET.val ∧ l'.val ≤ Debugger.debugLevel.QUIET.val) := by
    intro l' h
    omega
  refine ⟨?_, ?_, ?_, ?_, ?_, ?_, ?_, ?_⟩
  · unfold Debugger.print
    rw [hd]
    split <;> rename_i h <;> simp only [gt_iff_lt] at h <;> simp [h]
  · unfold Debugger.println
    rw [hd]
    split <;> rename_i h <;> simp only [gt_iff_lt] at h <;> simp [h]
  · unfold Debugger.print
    rw [hd]
    split <;> rename_i h <;> simp only [gt_iff_lt] at h <;> simp [h]
  · unfold Debugger.println
    rw [hd]
    split <;> rename_i h <;> simp only [gt_iff_lt] at h <;> simp [h]
  · unfold Debugger.print
    split <;> rfl
  · unfold Debugger.println
    split <;> rfl
  · unfold Debugger.print
    rw [hd, if_neg (hq l)]
  · unfold Debugger.println
    rw [hd, if_neg (hq l)]

/-! ## The active preset across calls -/

theorem plotGraph_state (s s' : OLEDPlotter) (t : Target) (values : List ℚ) (numVals : ℤ) (k : ℕ)
    (cmds : List Cmd) (h : s.plotGraph t values numVals k = some (s', cmds)) : s' = s := by
  unfold OLEDPlotter.plotGraph at h
  split at h
  · exact Option.noConfusion h
  · injection h with h
    exact (congrArg Prod.fst h).symm

/-- In a state reached by `toggleScale` and `plotGraph` calls the tag and the
active preset agree, as in `reachable_inv`. -/
theorem reachableCalls_inv {t : Target} {s : OLEDPlotter} (h : ReachableCalls t s) :
    (s.scale = scales.UNSET ∧ s.scaleset = scale_45)
      ∨ (s.scale = scales.THIRTYTHREE ∧ s.scaleset = scale_33)
      ∨ (s.scale = scales.FOURTYFIVE ∧ s.scaleset = scale_45) := by
  induction h with
  | init => exact Or.inl ⟨rfl, rfl⟩
  | toggle _ ih =>
    rcases ih with ⟨ht, _⟩ | ⟨ht, _⟩ | ⟨ht, _⟩ <;> simp [OLEDPlotter.toggleScale, ht]
  | plot values numVals morePages cmds _ hcall ih =>
    rw [plotGraph_state _ _ t values numVals morePages cmds hcall]
    exact ih

/-- One page pass over a non-empty buffer with `0 ≤ numVals ≤ values.length`
(or `numVals < 0`): the pass has a result, it holds `numVals` segments, and
segment `k` runs from `(133 - 4k, row of sample k-1)` (sample 0 for `k = 0`) to
`(128 - 4k, row of sample k)`, the row of a sample being
`127 - value2Pixels(sample)`. -/
theorem plotPage_segments_of_le (s : OLEDPlotter) (t : Target) (values : List ℚ) (numVals : ℤ)
    (h : values ≠ []) (hn : numVals ≤ values.length) :
    ∃ page, s.plotPage t values numVals = some page
      ∧ (segments page).length = numVals.toNat
      ∧ ∀ k, k < numVals.toNat → (segments page)[k]? = some
          (133 - 4 * (k : ℤ),
           127 - s.value2Pixels t (values.getD (k - 1) 0),
           128 - 4 * (k : ℤ),
           127 - s.value2Pixels t (values.getD k 0)) := by
  obtain ⟨cmds, hc, hlen, -, hget⟩ := plotLoop_spec s t 127 values numVals.toNat 0
    (127 - s.value2Pixels t (values.getD 0 0)) 0 (by omega)
  have hseg : segments (Cmd.setDrawColor 1 :: (s.drawYAxis t ++ cmds)) = segments cmds := by
    simp [segments, segments_append, segments_drawYAxis]
  refine ⟨Cmd.setDrawColor 1 :: (s.drawYAxis t ++ cmds), ?_, by rw [hseg, hlen], ?_⟩
  · cases values with
    | nil => exact absurd rfl h
    | cons v vs =>
      simp only [OLEDPlotter.plotPage, height_eq, List.getElem?_cons_zero]
      simp only [List.getD_cons_zero] at hc
      rw [hc]
  · intro k hk
    rw [hseg, hget k hk]
    refine congrArg some (Prod.ext ?_ (Prod.ext ?_ (Prod.ext ?_ ?_)))
    · dsimp only
      ring
    · dsimp only
      by_cases hk0 : k = 0
      · subst hk0
        rw [if_pos rfl]
      · rw [if_neg hk0, Nat.zero_add]
    · dsimp only
      ring
    · dsimp only
      rw [Nat.zero_add]

/-- The segments of a whole `plotGraph` call are those of its page passes. -/
theorem mem_segments_passes (page : List Cmd) (k : ℕ) (seg : ℤ × ℤ × ℤ × ℤ) :
    seg ∈ segments (Cmd.firstPage :: (List.replicate (k + 1) (page ++ [Cmd.nextPage])).flatten)
      ↔ seg ∈ segments page := by
  have hf : segments (Cmd.firstPage ::
      (List.replicate (k + 1) (page ++ [Cmd.nextPage])).flatten)
      = segments (List.replicate (k + 1) (page ++ [Cmd.nextPage])).flatten := rfl
  rw [hf, segments_passes, List.mem_flatten]
  constructor
  · rintro ⟨l, hl, hs⟩
    rw [(List.mem_replicate.mp hl).2] at hs
    exact hs
  · intro hs
    exact ⟨segments page, List.mem_replicate.mpr ⟨Nat.succ_ne_zero k, rfl⟩, hs⟩

/-- C13: in every state reached from the initial one by `toggleScale` and
`plotGraph` calls the active preset is one of the two distinct constant presets
`scale_33`, `scale_45`, it has `vmin < vtarget < vmax`, and its resolution is
`oled_height / (vmax - vmin)` of its own span, which is `128/6`. -/
theorem scaleset_invariant (s : OLEDPlotter) (t : Target) (h : ReachableCalls t s) :
    (s.scaleset = scale_33 ∨ s.scaleset = scale_45)
      ∧ scale_33 ≠ scale_45
      ∧ s.scaleset.vmin < s.scaleset.vtarget
      ∧ s.scaleset.vtarget < s.scaleset.vmax
      ∧ s.scaleset.resolution = oled_height / (s.scaleset.vmax - s.scaleset.vmin)
      ∧ s.scaleset.resolution = 128 / 6 := by
  have hp : s.scaleset = scale_33 ∨ s.scaleset = scale_45 := by
    rcases reachableCalls_inv h with ⟨_, hs⟩ | ⟨_, hs⟩ | ⟨_, hs⟩
    · exact Or.inr hs
    · exact Or.inl hs
    · exact Or.inr hs
  refine ⟨hp, scale_33_ne_scale_45, ?_⟩
  rcases hp with hs | hs <;> rw [hs] <;>
    norm_num [scale_33, scale_45, oled_height]

/-- C13, at the state after one `plotGraph` call and one `toggleScale` call. -/
theorem scaleset_invariant_witness :
    (OLEDPlotter.initial.toggleScale.scaleset = scale_33
        ∨ OLEDPlotter.initial.toggleScale.scaleset = scale_45)
      ∧ scale_33 ≠ scale_45
      ∧ OLEDPlotter.initial.toggleScale.scaleset.vmin
          < OLEDPlotter.initial.toggleScale.scaleset.vtarget
      ∧ OLEDPlotter.initial.toggleScale.scaleset.vtarget
          < OLEDPlotter.initial.toggleScale.scaleset.vmax
      ∧ OLEDPlotter.initial.toggleScale.scaleset.resolution
          = oled_height / (OLEDPlotter.initial.toggleScale.scaleset.vmax
              - OLEDPlotter.initial.toggleScale.scaleset.vmin)
      ∧ OLEDPlotter.initial.toggleScale.scaleset.resolution = 128 / 6 :=
  scaleset_invariant OLEDPlotter.initial.toggleScale Target.nano
    (ReachableCalls.toggle
      (ReachableCalls.plot [45] 1 0
        (Cmd.firstPage :: (List.replicate (0 + 1)
          ((Cmd.setDrawColor 1 :: (OLEDPlotter.initial.drawYAxis Target.nano
            ++ [Cmd.drawLine 133 63 128 63])) ++ [Cmd.nextPage])).flatten)
        ReachableCalls.init
        (plotGraph_of_page OLEDPlotter.initial Target.nano [45] 1 0 _ (by decide!))))

/-- C14: for every sample buffer and every plotter state, a `plotGraph` call
(with its `drawYAxis` and `value2Pixels` calls) that has a result leaves the
plotter, so the active preset `scaleset` and the tag `scale`, as it was; it has
a result whenever the buffer is not empty and holds at least `numVals` values.
`toggleScale` does change the active preset. -/
theorem plotGraph_keeps_scaleset (s : OLEDPlotter) (t : Target) (values : List ℚ) (numVals : ℤ) (k : ℕ) :
    (∀ s' cmds, s.plotGraph t values numVals k = some (s', cmds) →
        s'.scaleset = s.scaleset ∧ s'.scale = s.scale)
      ∧ (values ≠ [] → numVals ≤ values.length →
          ∃ cmds, s.plotGraph t values numVals k = some (s, cmds))
      ∧ OLEDPlotter.initial.toggleScale.scaleset ≠ OLEDPlotter.initial.scaleset := by
  refine ⟨?_, ?_, by decide⟩
  · intro s' cmds hcall
    rw [plotGraph_state s s' t values numVals k cmds hcall]
    exact ⟨rfl, rfl⟩
  · intro hne hn
    obtain ⟨page, hpage, -⟩ := plotPage_segments_of_le s t values numVals hne hn
    exact ⟨_, plotGraph_of_page s t values numVals k page hpage⟩

/-- C14, at the 45-preset, the buffer `[44,45,46,45,44]` and 8 page passes. -/
theorem plotGraph_keeps_scaleset_witness :
    ∃ cmds, OLEDPlotter.initial.plotGraph Target.nano [44, 45, 46, 45, 44] 5 7
      = some (OLEDPlotter.initial, cmds) :=
  (plotGraph_keeps_scaleset OLEDPlotter.initial Target.nano [44, 45, 46, 45, 44] 5 7).2.1
    (by simp) (by simp)

/-! ## plotGraph: coordinates -/

theorem value2Pixels_bounds (s : OLEDPlotter) (t : Target) (value : ℚ) :
    0 ≤ s.value2Pixels t value ∧ s.value2Pixels t value ≤ 127 := by
  rw [value2Pixels_eq_clamp]
  omega

/-- C15: for every non-empty sample buffer (any values, also outside
`[vmin, vmax]`) and every plotter state (so with either preset active), the
call has a result and both row coordinates of every `drawLine` it issues lie in
`[0, oled_height - 1] = [0, 127]`. -/
theorem plotGraph_rows_in_range (s : OLEDPlotter) (t : Target) (values : List ℚ) (k : ℕ)
    (h : values ≠ []) :
    ∃ cmds, s.plotGraph t values values.length k = some (s, cmds)
      ∧ ∀ x0 y0 x1 y1, (x0, y0, x1, y1) ∈ segments cmds →
          (0 ≤ y0 ∧ y0 ≤ float2int (oled_height - 1)) ∧ (0 ≤ y1 ∧ y1 ≤ float2int (oled_height - 1))
      ∧ float2int (oled_height - 1) = 127 := by
  obtain ⟨page, hpage, hlen, hget⟩ := plotPage_segments s t values h
  refine ⟨_, plotGraph_of_page s t values _ k page hpage, ?_⟩
  intro x0 y0 x1 y1 hmem
  rw [mem_segments_passes] at hmem
  obtain ⟨i, hi, hget'⟩ := List.getElem_of_mem hmem
  have hi' : i < values.length := by rw [← hlen]; exact hi
  have hsome : (segments page)[i]? = some (x0, y0, x1, y1) := by
    rw [List.getElem?_eq_getElem hi, hget']
  rw [hget i hi'] at hsome
  injection hsome with hsome
  have hy0 : 127 - s.value2Pixels t (values.getD (i - 1) 0) = y0 := by
    have := congrArg (fun t : ℤ × ℤ × ℤ × ℤ => t.2.1) hsome
    exact this
  have hy1 : 127 - s.value2Pixels t (values.getD i 0) = y1 := by
    have := congrArg (fun t : ℤ × ℤ × ℤ × ℤ => t.2.2.2) hsome
    exact this
  obtain ⟨ha0, ha1⟩ := value2Pixels_bounds s t (values.getD (i - 1) 0)
  obtain ⟨hb0, hb1⟩ := value2Pixels_bounds s t (values.getD i 0)
  rw [height_eq]
  refine ⟨⟨by omega, by omega⟩, ⟨by omega, by omega⟩, rfl⟩

/-- C15, at the 45-preset and the buffer `[0, 45, 1000]`, two values of which
lie outside `[42, 48]`. -/
theorem plotGraph_rows_in_range_witness :
    ∃ cmds, OLEDPlotter.initial.plotGraph Target.nano [0, 45, 1000] (([0, 45, 1000] : List ℚ).length) 7
        = some (OLEDPlotter.initial, cmds)
      ∧ ∀ x0 y0 x1 y1, (x0, y0, x1, y1) ∈ segments cmds →
          (0 ≤ y0 ∧ y0 ≤ float2int (oled_height - 1)) ∧ (0 ≤ y1 ∧ y1 ≤ float2int (oled_height - 1))
      ∧ float2int (oled_height - 1) = 127 :=
  plotGraph_rows_in_range OLEDPlotter.initial Target.nano [0, 45, 1000] 7 (by simp)

/-- C16: for every sample buffer and every index `i` in it, the segment drawn
for sample `i` ends at X `oled_width - i*stretch = 128 - 4*i`: the cursor starts
at 0, advances by `stretch` per sample and is mirrored from `oled_width`; the
end X of every later sample `j > i` is strictly smaller, and the end X of
sample 0 is `oled_width`, the largest. -/
theorem plotGraph_end_x (s : OLEDPlotter) (t : Target) (values : List ℚ) (i : ℕ)
    (hi : i < values.length) :
    ∃ page x0 y0 y1, s.plotPage t values values.length = some page
      ∧ (segments page)[i]? = some (x0, y0, float2int oled_width - (i : ℤ) * stretch, y1)
      ∧ float2int oled_width - (i : ℤ) * stretch = 128 - 4 * (i : ℤ)
      ∧ (i = 0 → (segments page)[i]? = some (x0, y0, float2int oled_width, y1))
      ∧ ∀ j, i < j → j < values.length →
          ∃ x0' y0' y1', (segments page)[j]?
              = some (x0', y0', float2int oled_width - (j : ℤ) * stretch, y1')
            ∧ float2int oled_width - (j : ℤ) * stretch
                < float2int oled_width - (i : ℤ) * stretch := by
  have hne : values ≠ [] := by
    intro h0
    rw [h0] at hi
    exact Nat.not_lt_zero i hi
  have hW : float2int oled_width = 128 := by
    have := float2int_intCast 128
    simpa [oled_width] using this
  obtain ⟨page, hpage, -, hget⟩ := plotPage_segments s t values hne
  have hx : ∀ m : ℕ, float2int oled_width - (m : ℤ) * stretch = 128 - 4 * (m : ℤ) := by
    intro m
    rw [hW, stretch]
    ring
  refine ⟨page, 133 - 4 * (i : ℤ), 127 - s.value2Pixels t (values.getD (i - 1) 0),
    127 - s.value2Pixels t (values.getD i 0), hpage, ?_, hx i, ?_, ?_⟩
  · rw [hget i hi, hx i]
  · intro h0
    subst h0
    rw [hget 0 hi, hW]
    rfl
  · intro j hij hj
    refine ⟨133 - 4 * (j : ℤ), 127 - s.value2Pixels t (values.getD (j - 1) 0),
      127 - s.value2Pixels t (values.getD j 0), ?_, ?_⟩
    · rw [hget j hj, hx j]
    · rw [hx i, hx j]
      omega

/-- C16, at the 45-preset, the buffer `[44,45,46,45,44]` and index 0. -/
theorem plotGraph_end_x_witness :
    ∃ page x0 y0 y1, OLEDPlotter.initial.plotPage Target.nano [44, 45, 46, 45, 44]
          (([44, 45, 46, 45, 44] : List ℚ).length) = some page
      ∧ (segments page)[0]? = some (x0, y0, float2int oled_width - ((0 : ℕ) : ℤ) * stretch, y1)
      ∧ float2int oled_width - ((0 : ℕ) : ℤ) * stretch = 128 - 4 * ((0 : ℕ) : ℤ)
      ∧ (0 = 0 → (segments page)[0]? = some (x0, y0, float2int oled_width, y1))
      ∧ ∀ j, 0 < j → j < ([44, 45, 46, 45, 44] : List ℚ).length →
          ∃ x0' y0' y1', (segments page)[j]?
              = some (x0', y0', float2int oled_width - (j : ℤ) * stretch, y1')
            ∧ float2int oled_width - (j : ℤ) * stretch
                < float2int oled_width - ((0 : ℕ) : ℤ) * stretch :=
  plotGraph_end_x OLEDPlotter.initial Target.nano [44, 45, 46, 45, 44] 0 (by decide)

/-- C17, as stated, fails: for the 1-sample buffer `[44]` under the 45-preset
the only segment runs from X 133 to X 128, both beyond `oled_width - 1 = 127`. -/
theorem plotGraph_first_segment_right_of_display :
    ∃ page, OLEDPlotter.initial.plotPage Target.nano [44] 1 = some page
      ∧ segments page = [(133, 85, 128, 85)]
      ∧ ¬ ((133 : ℤ) ≤ float2int oled_width - 1)
      ∧ ¬ ((128 : ℤ) ≤ float2int oled_width - 1) := by
  refine ⟨[Cmd.setDrawColor 1, Cmd.drawVLine 17 0 128, Cmd.drawHLine 12 64 5,
    Cmd.setCursor 0 67, Cmd.print "45", Cmd.setCursor 0 128, Cmd.print "42",
    Cmd.setCursor 0 7, Cmd.print "48", Cmd.drawLine 133 85 128 85], ?_, ?_, ?_, ?_⟩ <;> decide!

/-- C17, amended: for every non-empty sample buffer the segment of sample `i`
starts at X `oled_width + stretch + 1 - stretch*i = 133 - 4*i` and ends at X
`oled_width - stretch*i = 128 - 4*i`, so the segment of sample 0 (X 133 to 128)
and the start of the segment of sample 1 (X 129) are right of the display for
every sample count.  When the length `n` satisfies `n ≤ oled_width / stretch = 32`,
no X coordinate of a `drawLine` issued by `plotGraph` is negative: every start X
lies in `[0, oled_width + stretch + 1]`, every end X in `[0, oled_width]`; the
end X of every sample but the first and the start X of every sample from the
third on lie within the display, `[0, oled_width - 1] = [0, 127]`. -/
theorem plotGraph_x_in_range (s : OLEDPlotter) (t : Target) (values : List ℚ) (k : ℕ)
    (h1 : 1 ≤ values.length) :
    ∃ page cmds, s.plotPage t values values.length = some page
      ∧ s.plotGraph t values values.length k = some (s, cmds)
      ∧ (∀ (i : ℕ) (x0 y0 x1 y1 : ℤ), (segments page)[i]? = some (x0, y0, x1, y1) →
          x0 = float2int oled_width + stretch + 1 - stretch * (i : ℤ)
            ∧ x1 = float2int oled_width - stretch * (i : ℤ))
      ∧ ((values.length : ℤ) ≤ float2int (oled_width / stretch) →
          (∀ x0 y0 x1 y1, (x0, y0, x1, y1) ∈ segments cmds →
            (0 ≤ x0 ∧ x0 ≤ float2int oled_width + stretch + 1)
              ∧ (0 ≤ x1 ∧ x1 ≤ float2int oled_width))
          ∧ (∀ i x0 y0 x1 y1, (segments page)[i]? = some (x0, y0, x1, y1) →
            (1 ≤ i → 0 ≤ x1 ∧ x1 ≤ float2int oled_width - 1)
              ∧ (2 ≤ i → 0 ≤ x0 ∧ x0 ≤ float2int oled_width - 1))) := by
  have hne : values ≠ [] := by
    intro h0
    rw [h0] at h1
    exact Nat.not_succ_le_zero 0 h1
  have hW : float2int oled_width = 128 := by
    have := float2int_intCast 128
    simpa [oled_width] using this
  have hB : float2int (oled_width / stretch) = 32 := by
    have e : (oled_width / (stretch : ℚ)) = ((32 : ℤ) : ℚ) := by norm_num [oled_width, stretch]
    rw [e, float2int_intCast]
  obtain ⟨page, hpage, hlen, hget⟩ := plotPage_segments s t values hne
  have hidx : ∀ i x0 y0 x1 y1, (segments page)[i]? = some (x0, y0, x1, y1) →
      i < values.length ∧ x0 = 133 - 4 * (i : ℤ) ∧ x1 = 128 - 4 * (i : ℤ) := by
    intro i x0 y0 x1 y1 hsome
    have hi : i < values.length := by
      by_contra hge
      rw [List.getElem?_eq_none (by rw [hlen]; exact not_lt.mp hge)] at hsome
      exact Option.noConfusion hsome
    rw [hget i hi] at hsome
    injection hsome with hsome
    have e0 : 133 - 4 * (i : ℤ) = x0 := congrArg (fun p : ℤ × ℤ × ℤ × ℤ => p.1) hsome
    have e1 : 128 - 4 * (i : ℤ) = x1 := congrArg (fun p : ℤ × ℤ × ℤ × ℤ => p.2.2.1) hsome
    exact ⟨hi, e0.symm, e1.symm⟩
  refine ⟨page, _, hpage, plotGraph_of_page s t values _ k page hpage, ?_, ?_⟩
  · intro i x0 y0 x1 y1 hsome
    obtain ⟨-, e0, e1⟩ := hidx i x0 y0 x1 y1 hsome
    rw [hW, stretch]
    omega
  · intro h2
    rw [hB] at h2
    constructor
    · intro x0 y0 x1 y1 hmem
      rw [mem_segments_passes] at hmem
      obtain ⟨i, hi, hget'⟩ := List.getElem_of_mem hmem
      have hsome : (segments page)[i]? = some (x0, y0, x1, y1) := by
        rw [List.getElem?_eq_getElem hi, hget']
      obtain ⟨hil, e0, e1⟩ := hidx i x0 y0 x1 y1 hsome
      rw [hW, stretch]
      omega
    · intro i x0 y0 x1 y1 hsome
      obtain ⟨hil, e0, e1⟩ := hidx i x0 y0 x1 y1 hsome
      rw [hW]
      constructor <;> intro hi <;> omega

/-- C17, amended, on the Nano at the 45-preset and the buffer `[44,45,46,45,44]`. -/
theorem plotGraph_x_in_range_witness :
    ∃ page cmds, OLEDPlotter.initial.plotPage Target.nano [44, 45, 46, 45, 44]
          (([44, 45, 46, 45, 44] : List ℚ).length) = some page
      ∧ OLEDPlotter.initial.plotGraph Target.nano [44, 45, 46, 45, 44]
          (([44, 45, 46, 45, 44] : List ℚ).length) 7 = some (OLEDPlotter.initial, cmds)
      ∧ (∀ (i : ℕ) (x0 y0 x1 y1 : ℤ), (segments page)[i]? = some (x0, y0, x1, y1) →
          x0 = float2int oled_width + stretch + 1 - stretch * (i : ℤ)
            ∧ x1 = float2int oled_width - stretch * (i : ℤ))
      ∧ (((([44, 45, 46, 45, 44] : List ℚ).length : ℕ) : ℤ) ≤ float2int (oled_width / stretch) →
          (∀ x0 y0 x1 y1, (x0, y0, x1, y1) ∈ segments cmds →
            (0 ≤ x0 ∧ x0 ≤ float2int oled_width + stretch + 1)
              ∧ (0 ≤ x1 ∧ x1 ≤ float2int oled_width))
          ∧ (∀ i x0 y0 x1 y1, (segments page)[i]? = some (x0, y0, x1, y1) →
            (1 ≤ i → 0 ≤ x1 ∧ x1 ≤ float2int oled_width - 1)
              ∧ (2 ≤ i → 0 ≤ x0 ∧ x0 ≤ float2int oled_width - 1))) :=
  plotGraph_x_in_range OLEDPlotter.initial Target.nano [44, 45, 46, 45, 44] 7 (by decide)

/-- C18: the two flips differ by one row.  For every plotter state and value
`v`, `plotGraph` ends the segment of a sample of value `v` at row
`(oled_height - 1) - value2Pixels(v)`, one row above the row
`oled_height - value2Pixels(v)` that `drawYAxis` uses for its tick; under the
45-preset a sample of the target value 45 is drawn on row 63 and the target
tick on row 64. -/
theorem plotGraph_row_above_axis_row (s : OLEDPlotter) (t : Target) (v : ℚ) :
    (∃ page, s.plotPage t [v] 1 = some page
        ∧ segments page
            = [(133, float2int oled_height - s.value2Pixels t v - 1,
                128, float2int oled_height - s.value2Pixels t v - 1)])
      ∧ (s.drawYAxis t)[1]?
          = some (Cmd.drawHLine 12 (float2int oled_height - s.value2Pixels t s.scaleset.vtarget) 5)
      ∧ (OLEDPlotter.initial.plotPage t [45] 1).map segments = some [(133, 63, 128, 63)]
      ∧ (OLEDPlotter.initial.drawYAxis t)[1]? = some (Cmd.drawHLine 12 64 5) := by
  have hH : float2int oled_height = 128 := by
    have := float2int_intCast 128
    simpa [oled_height] using this
  have hpageAt : ∀ (s : OLEDPlotter) (v : ℚ), ∃ page, s.plotPage t [v] 1 = some page
      ∧ segments page
          = [(133, float2int oled_height - s.value2Pixels t v - 1,
              128, float2int oled_height - s.value2Pixels t v - 1)] := by
    intro s v
    obtain ⟨page, hpage, hlen, hget⟩ := plotPage_segments s t [v] (by simp)
    refine ⟨page, hpage, ?_⟩
    have h0 := hget 0 (by simp)
    match hs : segments page, hlen, h0 with
    | [seg], _, h0 =>
      simp only [List.getElem?_cons_zero, Option.some.injEq] at h0
      rw [h0, hH]
      simp
      omega
  have htick : ∀ s : OLEDPlotter, (s.drawYAxis t)[1]?
      = some (Cmd.drawHLine 12 (float2int oled_height - s.value2Pixels t s.scaleset.vtarget) 5) := by
    intro s
    simp only [OLEDPlotter.drawYAxis, oled_height_sub, hH]
    rfl
  obtain ⟨h45, -, -⟩ := value2Pixels_initial t
  refine ⟨hpageAt s v, htick s, ?_, ?_⟩
  · obtain ⟨page, hpage, hseg⟩ := hpageAt OLEDPlotter.initial OLEDPlotter.initial.scaleset.vtarget
    have hp : OLEDPlotter.initial.plotPage t [45] 1 = some page := hpage
    rw [hp, Option.map_some', hseg, h45, hH]
    rfl
  · rw [htick, h45, hH]
    rfl

end TurnTableTacho
